import Mathlib

/-!
A verification development for the X-56 HOTAS RGB utility.

Shallow embedding of the device-control engine: the protocol codec
(`protocol.py`), the per-device multi-attempt transfer engine and batch
dispatcher (`usb_backend.py`), color calibration and its JSON persistence
(`calibration.py`), and the effect scheduler tick (`effects.py`,
`main_window.py`).  Python integers are modelled as `Int`/`Nat`, Python
dicts as insertion-ordered association lists, raised exceptions as
`Except`/`Option`, and USB side effects as explicit outcome functions
passed in as parameters.
-/

namespace X56

/-! ## protocol.py -/

def VENDOR_ID : Nat := 0x0738

def SUPPORTED_PRODUCTS : List (Nat × String) :=
  [(0x2221, "X-56 Joystick"), (0xA221, "X-56 Throttle")]

def USB_TIMEOUT_MS : Nat := 4000

def REQUEST_TYPE_SET_REPORT : Nat := 0x21

def REQUEST_SET_REPORT : Nat := 0x09

def WVALUE_RGB : Nat := 0x0309

def WVALUE_APPLY : Nat := 0x0300

def WINDEX_INTERFACE_2 : Nat := 2 <<< 8

def PACKET_SIZE : Nat := 64

/-- Model of `build_rgb_packet` from `protocol.py`.  The Python code writes the
three channel bytes into a fresh 64-byte `bytearray`; a `bytearray` item
assignment raises `ValueError` when the value is outside `range(0, 256)`,
modelled here by returning `none`. -/
def build_rgb_packet (red green blue : Int) : Option (List Int) :=
  if 0 ≤ red ∧ red ≤ 255 ∧ 0 ≤ green ∧ green ≤ 255 ∧ 0 ≤ blue ∧ blue ≤ 255 then
    some ([0x09, 0x00, 0x03, red, green, blue] ++ List.replicate 58 0)
  else
    none

/-- Model of `build_apply_packet` from `protocol.py`: 64 bytes, first two `0x01`. -/
def build_apply_packet : List Int :=
  [0x01, 0x01] ++ List.replicate 62 0

/-! ## usb_backend.py: the per-device transfer engine -/

/-- Model of `DeviceInfo` from `usb_backend.py`. -/
structure DeviceInfo where
  id : Nat
  name : String
  bus : Nat
  address : Nat
  product_id : Nat
deriving DecidableEq, Repr

/-- The fixed attempt table built inside `X56UsbBackend._set_rgb_single`:
four `(interface list, wIndex)` combinations, in order. -/
def attempts : List (List Nat × Nat) :=
  [([2, 0], WINDEX_INTERFACE_2),
   ([2, 0], 2),
   ([2], WINDEX_INTERFACE_2),
   ([2], 2)]

/-- The retry loop of `_set_rgb_single`: try each attempt via `send`
(which models one full `_send_rgb_with_setup` call for that combination),
return on the first success, remember the last error.  The accumulator
mirrors the Python `last_error` variable (`none` before any failure). -/
def trySeq (send : List Nat × Nat → Except String Unit) :
    List (List Nat × Nat) → Option String → Except String Unit
  | [], none => .error "USB transfer failed. Unknown error."
  | [], some e => .error e
  | a :: rest, _ =>
    match send a with
    | .ok _ => .ok ()
    | .error e => trySeq send rest (some e)

/-- Model of `X56UsbBackend._set_rgb_single`, with the per-attempt USB work
abstracted into `send`. -/
def set_rgb_single (send : List Nat × Nat → Except String Unit) : Except String Unit :=
  trySeq send attempts none

/-! ## usb_backend.py: one attempt (`_send_rgb_with_setup`) -/

/-- A `usb.core.USBError`: its `errno` attribute (possibly absent) and its
`str()` rendering. -/
structure USBError where
  errno : Option Int
  message : String
deriving DecidableEq, Repr

/-- Python `str.lower()`, character-wise. -/
def pyLower (s : String) : String :=
  ⟨s.data.map Char.toLower⟩

/-- Python `str.strip()`: drop whitespace from both ends. -/
def pyStrip (s : String) : String :=
  ⟨((s.data.dropWhile Char.isWhitespace).reverse.dropWhile Char.isWhitespace).reverse⟩

/-- Whether `pat` is an initial segment of `l` (substring-search helper). -/
def listStartsWith : List Char → List Char → Bool
  | [], _ => true
  | _ :: _, [] => false
  | p :: ps, c :: cs => p == c && listStartsWith ps cs

/-- Python `pat in s` for strings: `pat` occurs contiguously in `hay`. -/
def listContainsSub (pat : List Char) : List Char → Bool
  | [] => listStartsWith pat []
  | c :: cs => listStartsWith pat (c :: cs) || listContainsSub pat cs

/-- Model of `X56UsbBackend._is_pipe_error`: errno 32, or the lower-cased message
contains the substring "pipe error". -/
def is_pipe_error (e : USBError) : Bool :=
  e.errno == some 32 || listContainsSub "pipe error".data (pyLower e.message).data

/-- The `except usb.core.USBError` wrapper at the bottom of
`_send_rgb_with_setup`: strip the message; if non-empty embed it in the
failure text, else use the generic text. -/
def wrapUsbError (e : USBError) : String :=
  let details := pyStrip e.message
  if details ≠ "" then "USB transfer failed (" ++ details ++ ")." else "USB transfer failed."

/-- Model of `X56UsbBackend._send_rgb_with_setup` for one attempt, with the three
fallible USB phases abstracted as outcomes: `claimErr` any `USBError`
raised while claiming/detaching (before the first transfer), `t1` the
color control transfer, `t2` the apply/latch control transfer (`none`
means success).  A pipe error on `t2` is swallowed; every other error is
wrapped into a `BackendError` string.  The `finally` release/reattach
block swallows its own errors and does not affect the result. -/
def send_rgb_with_setup (claimErr t1 t2 : Option USBError) : Except String Unit :=
  match claimErr with
  | some e => .error (wrapUsbError e)
  | none =>
    match t1 with
    | some e => .error (wrapUsbError e)
    | none =>
      match t2 with
      | none => .ok ()
      | some e => if is_pipe_error e then .ok () else .error (wrapUsbError e)

end X56

namespace X56

/-! ## calibration.py: palette, offsets, calibration -/

def CHANNELS : List String := ["R", "G", "B"]

/-- Model of `CALIBRATION_COLORS` from `calibration.py`: the fixed named palette in
its (insertion-ordered) Python dict iteration order. -/
def CALIBRATION_COLORS : List (String × Int × Int × Int) :=
  [("Red", 255, 0, 0),
   ("Green", 0, 255, 0),
   ("Blue", 0, 0, 255),
   ("Orange", 190, 20, 0),
   ("Purple", 180, 0, 200),
   ("Pink", 190, 4, 18),
   ("White", 255, 255, 255)]

/-- Model of `ColorOffset` from `calibration.py`. -/
structure ColorOffset where
  red : Int := 0
  green : Int := 0
  blue : Int := 0
deriving DecidableEq, Repr

/-- The squared Euclidean distance computed inside
`ColorCalibration.closest_target_name`.  The Python code compares
`math.sqrt` of this quantity with `<`; square roots of distinct integers
below `3 * 255 ^ 2` are distinct and ordered in double precision (their
gaps far exceed one ulp) and `sqrt` is strictly monotone, so comparing
the squared distances selects exactly the same palette entry. -/
def dist2 (red green blue pr pg pb : Int) : Int :=
  (red - pr) ^ 2 + (green - pg) ^ 2 + (blue - pb) ^ 2

/-- The loop of `ColorCalibration.closest_target_name`: walk the palette
keeping the best name and best (squared) distance; `none` models the
initial `float("inf")`, which every first distance beats. -/
def closestGo (red green blue : Int) :
    List (String × Int × Int × Int) → String → Option Int → String
  | [], best, _ => best
  | (name, pr, pg, pb) :: rest, best, bd =>
    let d := dist2 red green blue pr pg pb
    match bd with
    | none => closestGo red green blue rest name (some d)
    | some b0 =>
      if d < b0 then closestGo red green blue rest name (some d)
      else closestGo red green blue rest best (some b0)

/-- Model of `ColorCalibration.closest_target_name`: start from the default
`"White"` with infinite best distance and scan `CALIBRATION_COLORS`. -/
def closest_target_name (red green blue : Int) : String :=
  closestGo red green blue CALIBRATION_COLORS "White" none

/-- Model of `ColorCalibration` from `calibration.py`.  `target_offsets` is
`None`-able; a present dict is an insertion-ordered association list. -/
structure ColorCalibration where
  order : String × String × String := ("R", "G", "B")
  gain_r : Float := 1.0
  gain_g : Float := 1.0
  gain_b : Float := 1.0
  target_offsets : Option (List (String × ColorOffset)) := none

/-- The per-channel `max(0, min(255, v))` clamp used in
`ColorCalibration.apply`. -/
def pyClampByte (x : Int) : Int :=
  max 0 (min 255 x)

/-- Model of `ColorCalibration.apply`: with a non-empty offset table, resolve the
target name (an explicit non-empty name wins, else nearest palette
entry; Python `or` also treats `""` as absent), add that target's offset
channel-wise and clamp; otherwise return the input unchanged. -/
def ColorCalibration.apply (c : ColorCalibration) (red green blue : Int)
    (target_name : Option String) : Int × Int × Int :=
  let offsets := c.target_offsets.getD []
  if offsets ≠ [] then
    let selected_target :=
      match target_name with
      | some t => if t = "" then closest_target_name red green blue else t
      | none => closest_target_name red green blue
    match offsets.lookup selected_target with
    | some off =>
      (pyClampByte (red + off.red), pyClampByte (green + off.green),
        pyClampByte (blue + off.blue))
    | none => (red, green, blue)
  else
    (red, green, blue)

/-- The squared distance from an input color to one palette entry. -/
def pdist (red green blue : Int) (e : String × Int × Int × Int) : Int :=
  dist2 red green blue e.2.1 e.2.2.1 e.2.2.2

/-! ## usb_backend.py: the batch dispatcher (`set_rgb_many`) -/

/-- The condition tested by `X56UsbBackend._validate_rgb` (which raises
`BackendError` when it holds for any channel). -/
def rgb_out_of_range (red green blue : Int) : Bool :=
  decide (red < 0) || decide (red > 255) || decide (green < 0) || decide (green > 255) ||
    decide (blue < 0) || decide (blue > 255)

/-- Model of `set_rgb_many` refreshes the device list only when it is empty:
`if not self._entries: self.refresh()`.  `refreshed` is the list a
refresh would produce. -/
def effective_entries (entries refreshed : List DeviceInfo) : List DeviceInfo :=
  if entries.isEmpty then refreshed else entries

/-- Target resolution inside `set_rgb_many`: the sentinel id 0 selects
every enumerated device; otherwise keep the enumerated devices whose id
is in the requested set. -/
def resolveTargets (entries : List DeviceInfo) (device_ids : List Nat) : List DeviceInfo :=
  if 0 ∈ device_ids then entries
  else entries.filter (fun e => decide (e.id ∈ device_ids))

/-- The per-device calibrated color inside the `set_rgb_many` loop: with
a calibration for this device id, resolve the target name (the explicit
`calibration_target` unless it is `None` or `""`, Python `or`) and apply
the calibration; otherwise the raw input passes through. -/
def calibrated_out (cmap : List (Nat × ColorCalibration)) (ctgt : Option String)
    (red green blue : Int) (entry : DeviceInfo) : Int × Int × Int :=
  match cmap.lookup entry.id with
  | some cal =>
    let target_name :=
      match ctgt with
      | some t => if t = "" then closest_target_name red green blue else t
      | none => closest_target_name red green blue
    cal.apply red green blue (some target_name)
  | none => (red, green, blue)

/-- The failure string `set_rgb_many` records for one device. -/
def format_failure (id : Nat) (name : String) (msg : String) : String :=
  "Device " ++ toString id ++ " (" ++ name ++ "): " ++ msg

/-- The `for entry in targets` loop of `set_rgb_many`.  `transfer` models
`_set_rgb_single` for one device and packet, raising `BackendError` as
`.error`; those are caught and recorded, a `bytearray` `ValueError`
(modelled by an unbuildable packet) would escape the loop and abort the
call.  The extra `trace` output records the ids of the devices on which
a transfer was attempted, in order. -/
def processTargets (transfer : DeviceInfo → List Int → Except String Unit)
    (cmap : List (Nat × ColorCalibration)) (ctgt : Option String)
    (red green blue : Int) :
    List DeviceInfo → Nat → List String → List Nat →
      Except String (Nat × List String) × List Nat
  | [], applied, failures, trace => (.ok (applied, failures), trace)
  | entry :: rest, applied, failures, trace =>
    match build_rgb_packet (calibrated_out cmap ctgt red green blue entry).1
        (calibrated_out cmap ctgt red green blue entry).2.1
        (calibrated_out cmap ctgt red green blue entry).2.2 with
    | none => (.error "bytes must be in range(0, 256)", trace)
    | some pkt =>
      match transfer entry pkt with
      | .ok _ =>
        processTargets transfer cmap ctgt red green blue rest (applied + 1) failures
          (trace ++ [entry.id])
      | .error e =>
        processTargets transfer cmap ctgt red green blue rest applied
          (failures ++ [format_failure entry.id entry.name e]) (trace ++ [entry.id])

/-- Model of `X56UsbBackend.set_rgb_many`.  Precondition checks in source order:
RGB range, refresh-if-empty and the no-device error, empty selector,
empty resolved target set; then the per-device loop.  The second
component is the transfer trace (which devices were actually driven);
every precondition failure returns an empty trace. -/
def set_rgb_many (entries refreshed : List DeviceInfo) (device_ids : List Nat)
    (red green blue : Int) (calibrations : Option (List (Nat × ColorCalibration)))
    (calibration_target : Option String)
    (transfer : DeviceInfo → List Int → Except String Unit) :
    Except String (Nat × List String) × List Nat :=
  if rgb_out_of_range red green blue then
    (.error "RGB values must be in range 0-255.", [])
  else
    let cmap := calibrations.getD []
    let entries1 := effective_entries entries refreshed
    if entries1.isEmpty then (.error "No compatible X-56 devices found.", [])
    else if device_ids.isEmpty then (.error "No target device selected.", [])
    else
      let targets := resolveTargets entries1 device_ids
      if targets.isEmpty then (.error "Selected device ids were not found.", [])
      else processTargets transfer cmap calibration_target red green blue targets 0 [] []

/-- The outcome of the transfer for one device in a batch: the packet
built from its calibrated color handed to the engine.  The unbuildable
packet case corresponds to the loop's uncaught `ValueError` and never
arises for in-range input. -/
def device_outcome (transfer : DeviceInfo → List Int → Except String Unit)
    (cmap : List (Nat × ColorCalibration)) (ctgt : Option String)
    (red green blue : Int) (entry : DeviceInfo) : Except String Unit :=
  match build_rgb_packet (calibrated_out cmap ctgt red green blue entry).1
      (calibrated_out cmap ctgt red green blue entry).2.1
      (calibrated_out cmap ctgt red green blue entry).2.2 with
  | some pkt => transfer entry pkt
  | none => .error "bytes must be in range(0, 256)"

/-- Whether an `Except` outcome is a success. -/
def exceptIsOk (r : Except String Unit) : Bool :=
  match r with
  | .ok _ => true
  | .error _ => false

/-- The failure line contributed by one device, if any. -/
def failure_of (transfer : DeviceInfo → List Int → Except String Unit)
    (cmap : List (Nat × ColorCalibration)) (ctgt : Option String)
    (red green blue : Int) (entry : DeviceInfo) : Option String :=
  match device_outcome transfer cmap ctgt red green blue entry with
  | .error m => some (format_failure entry.id entry.name m)
  | .ok _ => none

/-! ## calibration.py: the persistence store -/

/-- Python `f-string` formatting with format spec `04x`: lowercase hex,
zero-padded on the left to width 4 (longer values are not truncated). -/
def hex04 (n : Nat) : String :=
  let ds := Nat.toDigits 16 n
  ⟨List.replicate (4 - ds.length) '0' ++ ds⟩

/-- The in-memory `_profiles` dict of `CalibrationStore`.  `_save()` only
mirrors it to disk and never changes it. -/
structure CalibrationStore where
  profiles : List (String × ColorCalibration)

/-- Model of `CalibrationStore.key_for_device`: the plain hex product-id key. -/
def key_for_device (device : DeviceInfo) : String :=
  hex04 device.product_id

/-- Model of `CalibrationStore._legacy_key_for_device`:
`hex_product_id:bus:address`. -/
def legacy_key_for_device (device : DeviceInfo) : String :=
  hex04 device.product_id ++ ":" ++ toString device.bus ++ ":" ++ toString device.address

/-- Python dict assignment `d[k] = v`: replace in place when the key
exists, else append at the end (dicts preserve insertion order). -/
def dictInsert {α : Type} (k : String) (v : α) :
    List (String × α) → List (String × α)
  | [] => [(k, v)]
  | (k1, v1) :: rest => if k1 = k then (k, v) :: rest else (k1, v1) :: dictInsert k v rest

/-- Model of `CalibrationStore.get_for_device`: direct hit on the plain key wins;
otherwise a hit on the legacy key is copied to the plain key (the legacy
entry is left in place) and returned; otherwise nothing. -/
def get_for_device (store : CalibrationStore) (device : DeviceInfo) :
    Option ColorCalibration × CalibrationStore :=
  let key := key_for_device device
  match store.profiles.lookup key with
  | some direct => (some direct, store)
  | none =>
    match store.profiles.lookup (legacy_key_for_device device) with
    | some legacy => (some legacy, ⟨dictInsert key legacy store.profiles⟩)
    | none => (none, store)

/-! ## calibration.py: JSON serialization -/

/-- The JSON-compatible Python values flowing through `to_json` and
`from_json`: Python keeps `int` and `float` distinct. -/
inductive Json where
  | null
  | bool (b : Bool)
  | int (n : Int)
  | num (x : Float)
  | str (s : String)
  | arr (elems : List Json)
  | obj (fields : List (String × Json))

/-- Python `str.upper()`, character-wise. -/
def pyUpper (s : String) : String :=
  ⟨s.data.map Char.toUpper⟩

/-- Python `int(float)` truncation toward zero. -/
def floatTruncToInt (x : Float) : Int :=
  if x ≥ 0 then Int.ofNat x.toUInt64.toNat else - Int.ofNat (0.0 - x).toUInt64.toNat

/-- Python `str(x)` as used on the order entries in `from_json`.  Only
the string case is ever exercised by the theorems below; the container
renderings are abbreviated, not Python's full `repr`. -/
def pyStr : Json → String
  | .str s => s
  | .bool true => "True"
  | .bool false => "False"
  | .null => "None"
  | .int n => toString n
  | .num x => toString x
  | .arr _ => "<list>"
  | .obj _ => "<dict>"

/-- Python `int(x)` returning `none` where it raises
`TypeError`/`ValueError` (caught by `_to_int`).  Python's string parsing
also accepts surrounding whitespace and underscores; `String.toInt?` is
the approximation, unexercised by the theorems below. -/
def pyToIntOpt : Json → Option Int
  | .int n => some n
  | .bool b => some (if b then 1 else 0)
  | .num x => some (floatTruncToInt x)
  | .str s => s.toInt?
  | _ => none

/-- Model of `_to_int` from `calibration.py`. -/
def pyToIntDef (v : Json) (d : Int) : Int :=
  (pyToIntOpt v).getD d

/-- Python `float(x)` returning `none` where it raises (in `from_json`
that exception escapes, so a `none` aborts the parse).  Python also
parses numeric strings; no theorem below exercises that case. -/
def pyToFloatOpt : Json → Option Float
  | .num x => some x
  | .int n => some (Float.ofInt n)
  | .bool b => some (if b then 1.0 else 0.0)
  | _ => none

/-- Model of `ColorOffset.to_json`. -/
def ColorOffset.to_json (o : ColorOffset) : List (String × Json) :=
  [("red", .int o.red), ("green", .int o.green), ("blue", .int o.blue)]

/-- Model of `ColorOffset.from_json`. -/
def ColorOffset.from_json (data : List (String × Json)) : ColorOffset :=
  { red := pyToIntDef ((data.lookup "red").getD (.int 0)) 0,
    green := pyToIntDef ((data.lookup "green").getD (.int 0)) 0,
    blue := pyToIntDef ((data.lookup "blue").getD (.int 0)) 0 }

/-- Model of `ColorCalibration.to_json`: `self.target_offsets or` an empty dict
is serialized entry-wise, in order. -/
def ColorCalibration.to_json (c : ColorCalibration) : List (String × Json) :=
  [("order", .arr [.str c.order.1, .str c.order.2.1, .str c.order.2.2]),
   ("gain_r", .num c.gain_r),
   ("gain_g", .num c.gain_g),
   ("gain_b", .num c.gain_b),
   ("target_offsets",
     .obj ((c.target_offsets.getD []).map (fun p => (p.1, Json.obj p.2.to_json))))]

/-- Model of `_parse_offsets` from `calibration.py`: non-dict input yields an
empty table; entries with non-dict values or keys outside the palette
are skipped (keys are strings by construction here, so the Python
`isinstance(key, str)` guard always passes). -/
def parse_offsets : Json → List (String × ColorOffset)
  | .obj fields =>
    fields.filterMap (fun p =>
      match p.2 with
      | .obj inner =>
        if p.1 ∈ CALIBRATION_COLORS.map Prod.fst then
          some (p.1, ColorOffset.from_json inner)
        else
          none
      | _ => none)
  | _ => []

/-- Model of `ColorCalibration.from_json`: a malformed `order` (not a 3-list of
channel names after upper-casing) falls back to `("R","G","B")`;
`float()` on a gain may raise (modelled as `none`);
`target_offsets` is always a parsed (possibly empty) dict, never
Python `None`. -/
def ColorCalibration.from_json (data : List (String × Json)) : Option ColorCalibration :=
  let order_raw := (data.lookup "order").getD (.arr [.str "R", .str "G", .str "B"])
  let order : String × String × String :=
    match order_raw with
    | .arr [x1, x2, x3] =>
      let p1 := pyUpper (pyStr x1)
      let p2 := pyUpper (pyStr x2)
      let p3 := pyUpper (pyStr x3)
      if p1 ∈ CHANNELS ∧ p2 ∈ CHANNELS ∧ p3 ∈ CHANNELS then (p1, p2, p3)
      else ("R", "G", "B")
    | _ => ("R", "G", "B")
  match pyToFloatOpt ((data.lookup "gain_r").getD (.num 1.0)),
      pyToFloatOpt ((data.lookup "gain_g").getD (.num 1.0)),
      pyToFloatOpt ((data.lookup "gain_b").getD (.num 1.0)) with
  | some gr, some gg, some gb =>
    some { order := order, gain_r := gr, gain_g := gg, gain_b := gb,
           target_offsets := some (parse_offsets ((data.lookup "target_offsets").getD .null)) }
  | _, _, _ => none

/-! ## effects.py and the scheduler tick of main_window.py -/

def EFFECT_OFF : String := "off"

def EFFECT_RAINBOW : String := "rainbow"

def EFFECT_MODES : List String := [EFFECT_OFF, EFFECT_RAINBOW]

/-- Model of `math.pi` as the IEEE double Python uses. -/
def mathPi : Float := 3.141592653589793

/-- Python float `%` (floored modulus, sign of the divisor). -/
def pyFloorMod (x y : Float) : Float :=
  x - y * (x / y).floor

/-- Model of `colorsys.hsv_to_rgb` from the Python standard library. -/
def hsv_to_rgb (h s v : Float) : Float × Float × Float :=
  if s == 0.0 then (v, v, v)
  else
    let i0 := floatTruncToInt (h * 6.0)
    let f := h * 6.0 - Float.ofInt i0
    let p := v * (1.0 - s)
    let q := v * (1.0 - s * f)
    let t := v * (1.0 - s * (1.0 - f))
    let i := i0 % 6
    if i == 0 then (v, t, p)
    else if i == 1 then (q, v, p)
    else if i == 2 then (p, v, t)
    else if i == 3 then (p, q, v)
    else if i == 4 then (t, p, v)
    else (v, p, q)

/-- Python `round()` on a float: nearest integer, ties to even. -/
def pyRound (x : Float) : Int :=
  let n := floatTruncToInt x.floor
  let d := x - x.floor
  if d < 0.5 then n
  else if 0.5 < d then n + 1
  else if n % 2 == 0 then n else n + 1

/-- Model of `_clamp_rgb` from `effects.py` (`int()` on an int is the identity). -/
def clamp_rgb (value : Int) : Int :=
  max 0 (min 255 value)

/-- Model of `compute_effect_color` from `effects.py`: rainbow mode derives the
hue from the phase and converts HSV to RGB; any other mode passes the
base color through. -/
def compute_effect_color (mode : String) (base_rgb : Int × Int × Int)
    (phase : Float) (brightness : Float) : Int × Int × Int :=
  if mode == EFFECT_RAINBOW then
    let hue := pyFloorMod (phase / (2.0 * mathPi)) 1.0
    let rgb := hsv_to_rgb hue 1.0 (max 0.05 (min 1.0 brightness))
    (clamp_rgb (pyRound (rgb.1 * 255.0)),
     clamp_rgb (pyRound (rgb.2.1 * 255.0)),
     clamp_rgb (pyRound (rgb.2.2 * 255.0)))
  else
    base_rgb

/-- Model of `next_phase` from `effects.py`. -/
def next_phase (phase : Float) (speed : Int) : Float :=
  phase + 0.02 * Float.ofInt (max 1 (min 20 speed))

/-- Model of `EffectSession` from `main_window.py`. -/
structure EffectSession where
  key : String
  mode : String
  speed : Int
  brightness : Int
  base_rgb : Int × Int × Int
  target_ids : List Nat
  product_id : Option Nat := none
  phase : Float := 0.0

/-- Model of `MainWindow._resolved_target_ids`: a product-wildcard session selects
every enumerated device of that product; an explicit session keeps the
ids that are currently enumerated. -/
def resolved_target_ids (devices : List DeviceInfo) (session : EffectSession) : List Nat :=
  match session.product_id with
  | some p => (devices.filter (fun d => decide (d.product_id = p))).map (fun d => d.id)
  | none => session.target_ids.filter (fun i => devices.any (fun d => d.id == i))

/-- One session's processing inside `MainWindow._effect_tick`, with the
whole `backend.set_rgb_many` call (including the calibration map the
window builds) abstracted into `dispatch`.  `none` removes the session
(the `del` for `off` mode); an empty target set or a raised
`BackendError` leaves it untouched; a normal dispatch return — whatever
per-device failures it reports — advances the phase. -/
def tick_session (devices : List DeviceInfo)
    (dispatch : List Nat → Int × Int × Int → Except String (Nat × List String))
    (session : EffectSession) : Option EffectSession :=
  if session.mode == EFFECT_OFF then none
  else
    let target_ids := resolved_target_ids devices session
    if target_ids.isEmpty then some session
    else
      let out := compute_effect_color session.mode session.base_rgb session.phase
        (Float.ofInt session.brightness / 100.0)
      match dispatch target_ids out with
      | .error _ => some session
      | .ok _ => some { session with phase := next_phase session.phase session.speed }

/-- Model of `MainWindow._effect_tick`: an early return when there are no sessions
or no devices, else every session of the key snapshot is processed
independently (each iteration only ever deletes its own key). -/
def effect_tick (devices : List DeviceInfo)
    (sessions : List (String × EffectSession))
    (dispatch : List Nat → Int × Int × Int → Except String (Nat × List String)) :
    List (String × EffectSession) :=
  if sessions.isEmpty || devices.isEmpty then sessions
  else
    sessions.filterMap (fun p =>
      (tick_session devices dispatch p.2).map (fun s2 => (p.1, s2)))

end X56

namespace X56

/-! ## C1: the retry table and retry semantics -/

/-- C1 (counterexample).  The claim says the first and third attempts use
wIndex `(2 <<< 8) ||| 2 = 0x0202`; in the code `WINDEX_INTERFACE_2` is
`2 <<< 8 = 0x0200`, so the wIndex sequence of the four attempts is
`[0x0200, 2, 0x0200, 2]`, not `[0x0202, 2, 0x0202, 2]`. -/
theorem c1_windex_counterexample :
    attempts.map Prod.snd = [0x0200, 2, 0x0200, 2] ∧
    attempts.map Prod.snd ≠ [0x0202, 2, 0x0202, 2] := by
  decide

/-- C1 (amended).  The transfer engine attempts exactly the four
(interface-set, wIndex) combinations `([2,0], 0x0200)`, `([2,0], 2)`,
`([2], 0x0200)`, `([2], 2)` in that order, tries each fully, returns on
the first successful attempt, and, if all four fail, raises the error of
the last (fourth) attempt. -/
theorem c1_retry_amended (send : List Nat × Nat → Except String Unit) :
    attempts = [([2, 0], 0x0200), ([2, 0], 2), ([2], 0x0200), ([2], 2)] ∧
    (send ([2, 0], 0x0200) = .ok () → set_rgb_single send = .ok ()) ∧
    (∀ e1, send ([2, 0], 0x0200) = .error e1 →
      send ([2, 0], 2) = .ok () → set_rgb_single send = .ok ()) ∧
    (∀ e1 e2, send ([2, 0], 0x0200) = .error e1 → send ([2, 0], 2) = .error e2 →
      send ([2], 0x0200) = .ok () → set_rgb_single send = .ok ()) ∧
    (∀ e1 e2 e3, send ([2, 0], 0x0200) = .error e1 → send ([2, 0], 2) = .error e2 →
      send ([2], 0x0200) = .error e3 →
      send ([2], 2) = .ok () → set_rgb_single send = .ok ()) ∧
    (∀ e1 e2 e3 e4, send ([2, 0], 0x0200) = .error e1 → send ([2, 0], 2) = .error e2 →
      send ([2], 0x0200) = .error e3 → send ([2], 2) = .error e4 →
      set_rgb_single send = .error e4) := by
  refine ⟨by decide, ?_, ?_, ?_, ?_, ?_⟩
  · intro h1
    simp [set_rgb_single, attempts, trySeq, WINDEX_INTERFACE_2, h1]
  · intro e1 h1 h2
    simp [set_rgb_single, attempts, trySeq, WINDEX_INTERFACE_2, h1, h2]
  · intro e1 e2 h1 h2 h3
    simp [set_rgb_single, attempts, trySeq, WINDEX_INTERFACE_2, h1, h2, h3]
  · intro e1 e2 e3 h1 h2 h3 h4
    simp [set_rgb_single, attempts, trySeq, WINDEX_INTERFACE_2, h1, h2, h3, h4]
  · intro e1 e2 e3 e4 h1 h2 h3 h4
    simp [set_rgb_single, attempts, trySeq, WINDEX_INTERFACE_2, h1, h2, h3, h4]

/-- A concrete instantiation of `c1_retry_amended`: a device that fails
the first three combinations and succeeds on the fourth yields success. -/
theorem c1_retry_amended_witness :
    set_rgb_single
      (fun a => if a = ([2], 2) then .ok () else .error "USB transfer failed (boom).") =
      .ok () :=
  (c1_retry_amended
      (fun a => if a = ([2], 2) then .ok () else .error "USB transfer failed (boom).")).2.2.2.2.1
    "USB transfer failed (boom)." "USB transfer failed (boom)." "USB transfer failed (boom)."
    (by rfl) (by rfl) (by rfl) (by rfl)

/-! ## C5: the pipe-error quirk -/

/-- C5.  A transport pipe error (errno 32 or message containing
"pipe error") is swallowed and treated as success exactly when it occurs
on the second (apply/latch) transfer of an attempt; a pipe error on the
first (color) transfer, and any non-pipe transport error on either
transfer, abort the attempt with a failure that wraps the transport
detail. -/
theorem c5_pipe_error_only_second (e : USBError) :
    (is_pipe_error e = true → send_rgb_with_setup none none (some e) = .ok ()) ∧
    (send_rgb_with_setup none (some e) none = .error (wrapUsbError e)) ∧
    (is_pipe_error e = false →
      send_rgb_with_setup none none (some e) = .error (wrapUsbError e)) ∧
    (pyStrip e.message ≠ "" →
      wrapUsbError e = "USB transfer failed (" ++ pyStrip e.message ++ ").") := by
  refine ⟨?_, ?_, ?_, ?_⟩
  · intro h
    simp [send_rgb_with_setup, h]
  · simp [send_rgb_with_setup]
  · intro h
    simp [send_rgb_with_setup, h]
  · intro h
    simp [wrapUsbError, h]

/-- A concrete instantiation of `c5_pipe_error_only_second`: errno 32 on
the apply transfer is swallowed, while the same error on the color
transfer fails with the wrapped detail. -/
theorem c5_pipe_error_witness :
    send_rgb_with_setup none none (some ⟨some 32, "Pipe error"⟩) = .ok () ∧
    send_rgb_with_setup none (some ⟨some 32, "Pipe error"⟩) none =
      .error "USB transfer failed (Pipe error)." :=
  ⟨(c5_pipe_error_only_second ⟨some 32, "Pipe error"⟩).1 (by decide),
    ((c5_pipe_error_only_second ⟨some 32, "Pipe error"⟩).2.1).trans (by rfl)⟩

end X56

namespace X56

/-! ## C3: range of `ColorCalibration.apply` -/

theorem pyClampByte_range (x : Int) : 0 ≤ pyClampByte x ∧ pyClampByte x ≤ 255 := by
  simp only [pyClampByte]
  omega

/-- Shared helper: `apply` keeps in-range input in range. -/
theorem apply_range (c : ColorCalibration) (tgt : Option String)
    (red green blue : Int)
    (hr : 0 ≤ red ∧ red ≤ 255) (hg : 0 ≤ green ∧ green ≤ 255)
    (hb : 0 ≤ blue ∧ blue ≤ 255) :
    (0 ≤ (c.apply red green blue tgt).1 ∧ (c.apply red green blue tgt).1 ≤ 255) ∧
    (0 ≤ (c.apply red green blue tgt).2.1 ∧ (c.apply red green blue tgt).2.1 ≤ 255) ∧
    (0 ≤ (c.apply red green blue tgt).2.2 ∧ (c.apply red green blue tgt).2.2 ≤ 255) := by
  unfold ColorCalibration.apply
  dsimp only
  split
  · split
    · exact ⟨pyClampByte_range _, pyClampByte_range _, pyClampByte_range _⟩
    · exact ⟨hr, hg, hb⟩
  · exact ⟨hr, hg, hb⟩

/-- C3 (counterexample).  With the default calibration (no offset table),
`apply 300 0 0` returns the input unchanged, so the first component is
300, outside [0, 255]: the claim fails without a range precondition on
the input. -/
theorem c3_range_counterexample :
    (ColorCalibration.apply {} 300 0 0 none).1 = 300 ∧
    ¬ (ColorCalibration.apply {} 300 0 0 none).1 ≤ 255 := by
  constructor
  · rfl
  · decide

/-- C3 (amended).  For all integers r, g, b already in [0, 255], every
calibration and every optional explicit target name, `apply` returns a
triple in which every component lies in [0, 255]: the offset branch
clamps, and every other branch returns the (in-range) input unchanged. -/
theorem c3_apply_range_amended (c : ColorCalibration) (tgt : Option String)
    (red green blue : Int)
    (hr : 0 ≤ red ∧ red ≤ 255) (hg : 0 ≤ green ∧ green ≤ 255)
    (hb : 0 ≤ blue ∧ blue ≤ 255) :
    (0 ≤ (c.apply red green blue tgt).1 ∧ (c.apply red green blue tgt).1 ≤ 255) ∧
    (0 ≤ (c.apply red green blue tgt).2.1 ∧ (c.apply red green blue tgt).2.1 ≤ 255) ∧
    (0 ≤ (c.apply red green blue tgt).2.2 ∧ (c.apply red green blue tgt).2.2 ≤ 255) :=
  apply_range c tgt red green blue hr hg hb

/-- A concrete instantiation of `c3_apply_range_amended`: the spec's own
scenario, a calibration offsetting "Red" by (+5, 0, -3) applied to
(255, 0, 0). -/
theorem c3_apply_range_witness :
    (0 ≤ (ColorCalibration.apply
        { target_offsets := some [("Red", { red := 5, green := 0, blue := -3 })] }
        255 0 0 none).1 ∧
      (ColorCalibration.apply
        { target_offsets := some [("Red", { red := 5, green := 0, blue := -3 })] }
        255 0 0 none).1 ≤ 255) ∧
    (0 ≤ (ColorCalibration.apply
        { target_offsets := some [("Red", { red := 5, green := 0, blue := -3 })] }
        255 0 0 none).2.1 ∧
      (ColorCalibration.apply
        { target_offsets := some [("Red", { red := 5, green := 0, blue := -3 })] }
        255 0 0 none).2.1 ≤ 255) ∧
    (0 ≤ (ColorCalibration.apply
        { target_offsets := some [("Red", { red := 5, green := 0, blue := -3 })] }
        255 0 0 none).2.2 ∧
      (ColorCalibration.apply
        { target_offsets := some [("Red", { red := 5, green := 0, blue := -3 })] }
        255 0 0 none).2.2 ≤ 255) :=
  c3_apply_range_amended
    { target_offsets := some [("Red", { red := 5, green := 0, blue := -3 })] }
    none 255 0 0 (by decide) (by decide) (by decide)

/-! ## C8: nearest-target resolution -/

/-- The scanning loop keeps the current best when nothing beats it
strictly, and otherwise ends on the first entry that strictly beats the
running best and is never strictly beaten afterwards. -/
theorem closestGo_first_argmin (red green blue : Int) :
    ∀ (l : List (String × Int × Int × Int)) (best : String) (b0 : Int),
      (closestGo red green blue l best (some b0) = best ∧
        ∀ e ∈ l, b0 ≤ pdist red green blue e) ∨
      (∃ l1 e l2, l = l1 ++ e :: l2 ∧
        closestGo red green blue l best (some b0) = e.1 ∧
        pdist red green blue e < b0 ∧
        (∀ e1 ∈ l1, pdist red green blue e < pdist red green blue e1) ∧
        (∀ e2 ∈ l2, pdist red green blue e ≤ pdist red green blue e2)) := by
  intro l
  induction l with
  | nil =>
    intro best b0
    left
    exact ⟨rfl, by simp⟩
  | cons hd rest ih =>
    intro best b0
    obtain ⟨name, pr, pg, pb⟩ := hd
    by_cases hd0 : dist2 red green blue pr pg pb < b0
    · rcases ih name (dist2 red green blue pr pg pb) with ⟨heq, hall⟩ | ⟨l1, e, l2, hl, heq, hlt, hbef, haft⟩
      · right
        refine ⟨[], (name, pr, pg, pb), rest, rfl, ?_, hd0, by simp, ?_⟩
        · simpa [closestGo, hd0] using heq
        · intro e2 he2
          exact hall e2 he2
      · right
        refine ⟨(name, pr, pg, pb) :: l1, e, l2, by simp [hl], ?_, ?_, ?_, haft⟩
        · simpa [closestGo, hd0] using heq
        · exact hlt.trans hd0
        · intro e1 he1
          rcases List.mem_cons.mp he1 with h | h
          · subst h
            exact hlt
          · exact hbef e1 h
    · rcases ih best b0 with ⟨heq, hall⟩ | ⟨l1, e, l2, hl, heq, hlt, hbef, haft⟩
      · left
        refine ⟨?_, ?_⟩
        · simpa [closestGo, hd0] using heq
        · intro e he
          rcases List.mem_cons.mp he with h | h
          · subst h
            simpa [pdist] using not_lt.mp hd0
          · exact hall e h
      · right
        refine ⟨(name, pr, pg, pb) :: l1, e, l2, by simp [hl], ?_, hlt, ?_, haft⟩
        · simpa [closestGo, hd0] using heq
        · intro e1 he1
          rcases List.mem_cons.mp he1 with h | h
          · subst h
            have : b0 ≤ dist2 red green blue pr pg pb := not_lt.mp hd0
            simpa [pdist] using hlt.trans_le this
          · exact hbef e1 h

/-- C8.  Nearest-target resolution returns the first palette entry of
minimal (squared, hence Euclidean) distance: the palette splits around
the returned entry, strictly closer than every earlier entry and at
least as close as every later one; and every exact palette RGB value
resolves to that entry's own name. -/
theorem c8_nearest_target (red green blue : Int) :
    (∃ l1 e l2, CALIBRATION_COLORS = l1 ++ e :: l2 ∧
      closest_target_name red green blue = e.1 ∧
      (∀ e1 ∈ l1, pdist red green blue e < pdist red green blue e1) ∧
      (∀ e2 ∈ l2, pdist red green blue e ≤ pdist red green blue e2)) ∧
    (∀ p ∈ CALIBRATION_COLORS, closest_target_name p.2.1 p.2.2.1 p.2.2.2 = p.1) := by
  constructor
  · have hstep : closest_target_name red green blue =
        closestGo red green blue CALIBRATION_COLORS.tail "Red"
          (some (dist2 red green blue 255 0 0)) := rfl
    rcases closestGo_first_argmin red green blue CALIBRATION_COLORS.tail "Red"
        (dist2 red green blue 255 0 0) with ⟨heq, hall⟩ | ⟨l1, e, l2, hl, heq, hlt, hbef, haft⟩
    · refine ⟨[], ("Red", 255, 0, 0), CALIBRATION_COLORS.tail, rfl, hstep.trans heq, by simp, ?_⟩
      intro e2 he2
      exact hall e2 he2
    · refine ⟨("Red", 255, 0, 0) :: l1, e, l2, ?_, hstep.trans heq, ?_, haft⟩
      · show CALIBRATION_COLORS = ("Red", 255, 0, 0) :: (l1 ++ e :: l2)
        rw [← hl]
        rfl
      · intro e1 he1
        rcases List.mem_cons.mp he1 with h | h
        · subst h
          exact hlt
        · exact hbef e1 h
  · decide

/-- A concrete instantiation of `c8_nearest_target`: the exact palette
value (255, 0, 0) resolves to "Red". -/
theorem c8_nearest_target_witness :
    closest_target_name 255 0 0 = "Red" :=
  (c8_nearest_target 255 0 0).2 ("Red", 255, 0, 0) (by decide)

end X56

namespace X56

/-! ## C10: the sentinel id 0 -/

/-- C10.  Any device-id list containing the sentinel 0 — regardless of
what else it contains — resolves to the full current enumeration, in
enumeration order. -/
theorem c10_sentinel_selects_all (entries : List DeviceInfo) (device_ids : List Nat)
    (h : 0 ∈ device_ids) :
    resolveTargets entries device_ids = entries := by
  simp [resolveTargets, h]

/-- A concrete instantiation of `c10_sentinel_selects_all`: ids
`[7, 0, 99]` (99 matching no device) still select both enumerated
devices in order. -/
theorem c10_sentinel_selects_all_witness :
    resolveTargets
      [⟨1, "X-56 Joystick", 1, 4, 0x2221⟩, ⟨2, "X-56 Throttle", 1, 5, 0xA221⟩]
      [7, 0, 99] =
      [⟨1, "X-56 Joystick", 1, 4, 0x2221⟩, ⟨2, "X-56 Throttle", 1, 5, 0xA221⟩] :=
  c10_sentinel_selects_all
    [⟨1, "X-56 Joystick", 1, 4, 0x2221⟩, ⟨2, "X-56 Throttle", 1, 5, 0xA221⟩]
    [7, 0, 99] (by decide)

/-! ## C6: precondition failures abort before any transfer -/

/-- C6.  When any channel is out of [0, 255], or the selector is empty,
or no currently known device matches the selector, `set_rgb_many` fails
with an error and its transfer trace is empty: no control transfer is
issued to any device. -/
theorem c6_preconditions_block_io (entries refreshed : List DeviceInfo)
    (device_ids : List Nat) (red green blue : Int)
    (calibrations : Option (List (Nat × ColorCalibration)))
    (calibration_target : Option String)
    (transfer : DeviceInfo → List Int → Except String Unit)
    (h : rgb_out_of_range red green blue = true ∨ device_ids = [] ∨
      resolveTargets (effective_entries entries refreshed) device_ids = []) :
    (∃ msg, (set_rgb_many entries refreshed device_ids red green blue calibrations
        calibration_target transfer).1 = .error msg) ∧
    (set_rgb_many entries refreshed device_ids red green blue calibrations
        calibration_target transfer).2 = [] := by
  by_cases h1 : rgb_out_of_range red green blue = true
  · simp [set_rgb_many, h1]
  · have h1' : rgb_out_of_range red green blue = false := by
      simpa using h1
    by_cases h2 : (effective_entries entries refreshed).isEmpty
    · simp [set_rgb_many, h1', h2]
    · rcases h with h | h | h
      · exact absurd h h1
      · simp [set_rgb_many, h1', h2, h]
      · by_cases h3 : device_ids.isEmpty
        · simp [set_rgb_many, h1', h2, h3]
        · simp [set_rgb_many, h1', h2, h3, h]

/-- A concrete instantiation of `c6_preconditions_block_io`: red = 300 on
one enumerated device errors with an empty transfer trace. -/
theorem c6_preconditions_block_io_witness :
    (∃ msg, (set_rgb_many [⟨1, "X-56 Joystick", 1, 4, 0x2221⟩] [] [1] 300 0 0 none none
        (fun _ _ => .ok ())).1 = .error msg) ∧
    (set_rgb_many [⟨1, "X-56 Joystick", 1, 4, 0x2221⟩] [] [1] 300 0 0 none none
        (fun _ _ => .ok ())).2 = [] :=
  c6_preconditions_block_io [⟨1, "X-56 Joystick", 1, 4, 0x2221⟩] [] [1] 300 0 0 none none
    (fun _ _ => .ok ()) (Or.inl (by decide))

/-! ## C4: batch outcome accounting -/

/-- The calibrated color of any device stays in range for in-range
input, so its packet always builds. -/
theorem build_packet_isSome (cmap : List (Nat × ColorCalibration)) (ctgt : Option String)
    (red green blue : Int) (entry : DeviceInfo)
    (hr : 0 ≤ red ∧ red ≤ 255) (hg : 0 ≤ green ∧ green ≤ 255)
    (hb : 0 ≤ blue ∧ blue ≤ 255) :
    ((build_rgb_packet (calibrated_out cmap ctgt red green blue entry).1
      (calibrated_out cmap ctgt red green blue entry).2.1
      (calibrated_out cmap ctgt red green blue entry).2.2).isSome) := by
  unfold calibrated_out
  dsimp only
  split
  · rename_i cal heq
    have h := apply_range cal
      (some (match ctgt with
        | some t => if t = "" then closest_target_name red green blue else t
        | none => closest_target_name red green blue))
      red green blue hr hg hb
    simp only [build_rgb_packet, Option.isSome]
    rw [if_pos]
    exact ⟨h.1.1, h.1.2, h.2.1.1, h.2.1.2, h.2.2.1, h.2.2.2⟩
  · simp only [build_rgb_packet, Option.isSome]
    rw [if_pos]
    exact ⟨hr.1, hr.2, hg.1, hg.2, hb.1, hb.2⟩

/-- Loop invariant for `processTargets`: with every packet buildable, the
loop never raises and accumulates successes, formatted failures in
encounter order, and the trace of attempted devices. -/
theorem processTargets_spec (transfer : DeviceInfo → List Int → Except String Unit)
    (cmap : List (Nat × ColorCalibration)) (ctgt : Option String)
    (red green blue : Int) :
    ∀ (ts : List DeviceInfo) (applied : Nat) (failures : List String) (trace : List Nat),
      (∀ e ∈ ts, (build_rgb_packet (calibrated_out cmap ctgt red green blue e).1
        (calibrated_out cmap ctgt red green blue e).2.1
        (calibrated_out cmap ctgt red green blue e).2.2).isSome) →
      processTargets transfer cmap ctgt red green blue ts applied failures trace =
        (.ok (applied +
            (ts.filter (fun e => exceptIsOk (device_outcome transfer cmap ctgt red green blue e))).length,
          failures ++ ts.filterMap (failure_of transfer cmap ctgt red green blue)),
         trace ++ ts.map (fun e => e.id)) := by
  intro ts
  induction ts with
  | nil =>
    intro applied failures trace _
    simp [processTargets]
  | cons entry rest ih =>
    intro applied failures trace hpk
    have hhead := hpk entry (List.mem_cons_self entry rest)
    obtain ⟨pkt, hpkt⟩ := Option.isSome_iff_exists.mp hhead
    have hout : device_outcome transfer cmap ctgt red green blue entry = transfer entry pkt := by
      unfold device_outcome
      rw [hpkt]
    have hrest : ∀ e ∈ rest, (build_rgb_packet (calibrated_out cmap ctgt red green blue e).1
        (calibrated_out cmap ctgt red green blue e).2.1
        (calibrated_out cmap ctgt red green blue e).2.2).isSome :=
      fun e he => hpk e (List.mem_cons_of_mem entry he)
    cases htr : transfer entry pkt with
    | ok u =>
      have : processTargets transfer cmap ctgt red green blue (entry :: rest) applied failures trace =
          processTargets transfer cmap ctgt red green blue rest (applied + 1) failures
            (trace ++ [entry.id]) := by
        simp only [processTargets, hpkt, htr]
      rw [this, ih (applied + 1) failures (trace ++ [entry.id]) hrest]
      have hok : exceptIsOk (device_outcome transfer cmap ctgt red green blue entry) = true := by
        rw [hout, htr]
        rfl
      have hfail : failure_of transfer cmap ctgt red green blue entry = none := by
        unfold failure_of
        rw [hout, htr]
      simp [hok, hfail, List.filter_cons, List.filterMap_cons]
      omega
    | error msg =>
      have : processTargets transfer cmap ctgt red green blue (entry :: rest) applied failures trace =
          processTargets transfer cmap ctgt red green blue rest applied
            (failures ++ [format_failure entry.id entry.name msg]) (trace ++ [entry.id]) := by
        simp only [processTargets, hpkt, htr]
      rw [this, ih applied (failures ++ [format_failure entry.id entry.name msg])
        (trace ++ [entry.id]) hrest]
      have hok : exceptIsOk (device_outcome transfer cmap ctgt red green blue entry) = false := by
        rw [hout, htr]
        rfl
      have hfail : failure_of transfer cmap ctgt red green blue entry =
          some (format_failure entry.id entry.name msg) := by
        unfold failure_of
        rw [hout, htr]
      simp [hok, hfail, List.filter_cons, List.filterMap_cons]

/-- C4.  When the preconditions pass, `set_rgb_many` returns normally:
the success count is the number of resolved targets whose transfer
succeeded, the failures are exactly the formatted
"Device id (name): detail" lines of the failing targets in encounter
order, success count plus failure count equals the target count, and
every resolved target is processed (the trace lists them all). -/
theorem c4_batch_accounting (entries refreshed : List DeviceInfo)
    (device_ids : List Nat) (red green blue : Int)
    (calibrations : Option (List (Nat × ColorCalibration)))
    (calibration_target : Option String)
    (transfer : DeviceInfo → List Int → Except String Unit)
    (hr : 0 ≤ red ∧ red ≤ 255) (hg : 0 ≤ green ∧ green ≤ 255)
    (hb : 0 ≤ blue ∧ blue ≤ 255)
    (hids : device_ids ≠ [])
    (hne : resolveTargets (effective_entries entries refreshed) device_ids ≠ []) :
    set_rgb_many entries refreshed device_ids red green blue calibrations
        calibration_target transfer =
      (.ok ((resolveTargets (effective_entries entries refreshed) device_ids).filter
            (fun e => exceptIsOk (device_outcome transfer (calibrations.getD [])
              calibration_target red green blue e)) |>.length,
          (resolveTargets (effective_entries entries refreshed) device_ids).filterMap
            (failure_of transfer (calibrations.getD []) calibration_target red green blue)),
       (resolveTargets (effective_entries entries refreshed) device_ids).map
         (fun e => e.id)) ∧
    ((resolveTargets (effective_entries entries refreshed) device_ids).filter
        (fun e => exceptIsOk (device_outcome transfer (calibrations.getD [])
          calibration_target red green blue e)) |>.length) +
      ((resolveTargets (effective_entries entries refreshed) device_ids).filterMap
        (failure_of transfer (calibrations.getD [])
          calibration_target red green blue)).length =
      (resolveTargets (effective_entries entries refreshed) device_ids).length := by
  have hrgb : rgb_out_of_range red green blue = false := by
    simp only [rgb_out_of_range]
    simp only [Bool.or_eq_false_iff, decide_eq_false_iff_not]
    omega
  have hentries : (effective_entries entries refreshed).isEmpty = false := by
    rcases hq : (effective_entries entries refreshed) with _ | _
    · exfalso
      apply hne
      simp [hq, resolveTargets]
    · rfl
  have hpk : ∀ e ∈ resolveTargets (effective_entries entries refreshed) device_ids,
      (build_rgb_packet
        (calibrated_out (calibrations.getD []) calibration_target red green blue e).1
        (calibrated_out (calibrations.getD []) calibration_target red green blue e).2.1
        (calibrated_out (calibrations.getD []) calibration_target red green blue e).2.2).isSome :=
    fun e _ => build_packet_isSome (calibrations.getD []) calibration_target red green blue e
      hr hg hb
  constructor
  · unfold set_rgb_many
    rw [if_neg (by simp [hrgb])]
    simp only
    rw [if_neg (by simp [hentries]), if_neg (by simp [List.isEmpty_iff, hids]),
      if_neg (by simp [List.isEmpty_iff, hne])]
    rw [processTargets_spec transfer (calibrations.getD []) calibration_target red green blue
      (resolveTargets (effective_entries entries refreshed) device_ids) 0 [] [] hpk]
    simp
  · induction resolveTargets (effective_entries entries refreshed) device_ids with
    | nil => simp
    | cons e rest ihl =>
      by_cases he : exceptIsOk (device_outcome transfer (calibrations.getD [])
          calibration_target red green blue e) = true
      · have hf : failure_of transfer (calibrations.getD []) calibration_target red green blue e =
            none := by
          unfold failure_of
          revert he
          unfold exceptIsOk
          rcases device_outcome transfer (calibrations.getD [])
            calibration_target red green blue e with _ | _ <;> simp
        simp only [List.filter_cons, he, if_true, List.filterMap_cons, hf, List.length_cons]
        omega
      · have he' : exceptIsOk (device_outcome transfer (calibrations.getD [])
            calibration_target red green blue e) = false := by
          simpa using he
        have hf : ∃ m, failure_of transfer (calibrations.getD [])
            calibration_target red green blue e = some m := by
          unfold failure_of
          revert he'
          unfold exceptIsOk
          rcases device_outcome transfer (calibrations.getD [])
            calibration_target red green blue e with _ | _ <;> simp
        obtain ⟨m, hm⟩ := hf
        simp only [List.filter_cons, he', Bool.false_eq_true, if_false, List.filterMap_cons, hm,
          List.length_cons]
        omega

/-- A concrete instantiation of `c4_batch_accounting`: two devices, the
second always failing, yields one success and one formatted failure. -/
theorem c4_batch_accounting_witness :
    set_rgb_many
        [⟨1, "X-56 Joystick", 1, 4, 0x2221⟩, ⟨2, "X-56 Throttle", 1, 5, 0xA221⟩] []
        [0] 255 0 0 none none
        (fun e _ => if e.id = 2 then .error "USB transfer failed (boom)." else .ok ()) =
      (.ok (1, ["Device 2 (X-56 Throttle): USB transfer failed (boom)."]), [1, 2]) :=
  ((c4_batch_accounting
      [⟨1, "X-56 Joystick", 1, 4, 0x2221⟩, ⟨2, "X-56 Throttle", 1, 5, 0xA221⟩] []
      [0] 255 0 0 none none
      (fun e _ => if e.id = 2 then .error "USB transfer failed (boom)." else .ok ())
      (by decide) (by decide) (by decide) (by decide) (by decide)).1).trans (by rfl)

end X56

namespace X56

/-! ## C2: legacy-key migration in the calibration store -/

theorem lookup_dictInsert_self {α : Type} (k : String) (v : α)
    (l : List (String × α)) : (dictInsert k v l).lookup k = some v := by
  induction l with
  | nil => simp [dictInsert, List.lookup]
  | cons p rest ih =>
    obtain ⟨k1, v1⟩ := p
    by_cases h : k1 = k
    · subst h
      simp [dictInsert, List.lookup]
    · simp only [dictInsert, if_neg h, List.lookup]
      have : (k == k1) = false := by
        simp [Ne.symm h]
      rw [this]
      exact ih

theorem lookup_dictInsert_ne {α : Type} (k k1 : String) (v : α)
    (l : List (String × α)) (h : k1 ≠ k) :
    (dictInsert k v l).lookup k1 = l.lookup k1 := by
  induction l with
  | nil =>
    simp only [dictInsert, List.lookup]
    have : (k1 == k) = false := by simp [h]
    rw [this]
  | cons p rest ih =>
    obtain ⟨k2, v2⟩ := p
    by_cases h2 : k2 = k
    · subst h2
      simp only [dictInsert, if_pos rfl, List.lookup]
      have : (k1 == k2) = false := by simp [h]
      rw [this]
    · simp only [dictInsert, if_neg h2, List.lookup]
      by_cases h3 : k1 = k2
      · subst h3
        simp
      · have : (k1 == k2) = false := by simp [h3]
        rw [this]
        exact ih

/-- C2 (counterexample).  A store holding a calibration only under the
legacy key "2221:1:2": the first `get_for_device` does return it, but
the legacy key is still present in the updated store, contradicting the
claim that it is no longer present. -/
theorem c2_migration_counterexample :
    (get_for_device ⟨[("2221:1:2", {})]⟩ ⟨1, "X-56 Joystick", 1, 2, 0x2221⟩).1 =
      some {} ∧
    ((get_for_device ⟨[("2221:1:2", {})]⟩
        ⟨1, "X-56 Joystick", 1, 2, 0x2221⟩).2.profiles.lookup "2221:1:2") = some {} := by
  constructor
  · rfl
  · rfl

/-- C2 (amended).  For a device whose calibration is stored only under
the legacy key, the first lookup returns it and rewrites it under the
plain key; a subsequent lookup finds it under the plain key (leaving the
store unchanged) — but the legacy entry remains in the store (it is only
deleted by `set_for_device`/`reset_for_device`). -/
theorem c2_legacy_migration_amended (device : DeviceInfo) (cal : ColorCalibration)
    (profiles : List (String × ColorCalibration))
    (hplain : profiles.lookup (key_for_device device) = none)
    (hlegacy : profiles.lookup (legacy_key_for_device device) = some cal) :
    (get_for_device ⟨profiles⟩ device).1 = some cal ∧
    ((get_for_device ⟨profiles⟩ device).2.profiles.lookup (key_for_device device) =
      some cal) ∧
    (get_for_device (get_for_device ⟨profiles⟩ device).2 device).1 = some cal ∧
    (get_for_device (get_for_device ⟨profiles⟩ device).2 device).2 =
      (get_for_device ⟨profiles⟩ device).2 ∧
    ((get_for_device ⟨profiles⟩ device).2.profiles.lookup (legacy_key_for_device device) =
      some cal) := by
  have hne : legacy_key_for_device device ≠ key_for_device device := by
    intro h
    rw [h, hplain] at hlegacy
    exact Option.noConfusion hlegacy
  have h1 : get_for_device ⟨profiles⟩ device =
      (some cal, ⟨dictInsert (key_for_device device) cal profiles⟩) := by
    simp only [get_for_device, hplain, hlegacy]
  have h2 : (dictInsert (key_for_device device) cal profiles).lookup (key_for_device device) =
      some cal := lookup_dictInsert_self _ _ _
  have h3 : (dictInsert (key_for_device device) cal profiles).lookup
      (legacy_key_for_device device) = some cal := by
    rw [lookup_dictInsert_ne _ _ _ _ hne]
    exact hlegacy
  refine ⟨by rw [h1], by rw [h1]; exact h2, ?_, ?_, by rw [h1]; exact h3⟩
  · rw [h1]
    simp only [get_for_device, h2]
  · rw [h1]
    simp only [get_for_device, h2]

/-- A concrete instantiation of `c2_legacy_migration_amended` for a
joystick on bus 1, address 2. -/
theorem c2_legacy_migration_witness :
    (get_for_device ⟨[("2221:1:2", {})]⟩ ⟨1, "X-56 Joystick", 1, 2, 0x2221⟩).1 =
      some ({} : ColorCalibration) ∧
    ((get_for_device ⟨[("2221:1:2", {})]⟩
        ⟨1, "X-56 Joystick", 1, 2, 0x2221⟩).2.profiles.lookup
      (key_for_device ⟨1, "X-56 Joystick", 1, 2, 0x2221⟩) = some ({} : ColorCalibration)) ∧
    (get_for_device
      (get_for_device ⟨[("2221:1:2", {})]⟩ ⟨1, "X-56 Joystick", 1, 2, 0x2221⟩).2
      ⟨1, "X-56 Joystick", 1, 2, 0x2221⟩).1 = some ({} : ColorCalibration) ∧
    (get_for_device
      (get_for_device ⟨[("2221:1:2", {})]⟩ ⟨1, "X-56 Joystick", 1, 2, 0x2221⟩).2
      ⟨1, "X-56 Joystick", 1, 2, 0x2221⟩).2 =
      (get_for_device ⟨[("2221:1:2", {})]⟩ ⟨1, "X-56 Joystick", 1, 2, 0x2221⟩).2 ∧
    ((get_for_device ⟨[("2221:1:2", {})]⟩
        ⟨1, "X-56 Joystick", 1, 2, 0x2221⟩).2.profiles.lookup
      (legacy_key_for_device ⟨1, "X-56 Joystick", 1, 2, 0x2221⟩) =
      some ({} : ColorCalibration)) :=
  c2_legacy_migration_amended ⟨1, "X-56 Joystick", 1, 2, 0x2221⟩ {} [("2221:1:2", {})]
    (by rfl) (by rfl)

end X56

namespace X56

/-! ## C7: JSON round trip of `ColorCalibration` -/

theorem offset_roundtrip (o : ColorOffset) :
    ColorOffset.from_json (ColorOffset.to_json o) = o := by
  rfl

theorem upper_channel (s : String) (h : s ∈ CHANNELS) : pyUpper s = s := by
  simp only [CHANNELS, List.mem_cons, List.mem_singleton, List.not_mem_nil, or_false] at h
  rcases h with rfl | rfl | rfl <;> rfl

theorem parse_offsets_roundtrip (offs : List (String × ColorOffset))
    (hk : ∀ p ∈ offs, p.1 ∈ CALIBRATION_COLORS.map Prod.fst) :
    parse_offsets (.obj (offs.map (fun p => (p.1, Json.obj p.2.to_json)))) = offs := by
  induction offs with
  | nil => rfl
  | cons p rest ih =>
    have hp := hk p (List.mem_cons_self p rest)
    have hrest : ∀ q ∈ rest, q.1 ∈ CALIBRATION_COLORS.map Prod.fst :=
      fun q hq => hk q (List.mem_cons_of_mem p hq)
    simp only [List.map_cons, parse_offsets, List.filterMap_cons, if_pos hp,
      offset_roundtrip]
    have := ih hrest
    simp only [parse_offsets] at this
    rw [this]

/-- C7.  For every valid `ColorCalibration` — channel names in the order
triple, arbitrary gains, a target-offset table keyed by palette names —
parsing the serialized form yields the original value. -/
theorem c7_json_roundtrip (c : ColorCalibration) (offs : List (String × ColorOffset))
    (hoffs : c.target_offsets = some offs)
    (hk : ∀ p ∈ offs, p.1 ∈ CALIBRATION_COLORS.map Prod.fst)
    (h1 : c.order.1 ∈ CHANNELS) (h2 : c.order.2.1 ∈ CHANNELS)
    (h3 : c.order.2.2 ∈ CHANNELS) :
    ColorCalibration.from_json (ColorCalibration.to_json c) = some c := by
  obtain ⟨⟨o1, o2, o3⟩, gr, gg, gb, tof⟩ := c
  simp only at hoffs h1 h2 h3
  subst hoffs
  have hu1 : pyUpper o1 = o1 := upper_channel _ h1
  have hu2 : pyUpper o2 = o2 := upper_channel _ h2
  have hu3 : pyUpper o3 = o3 := upper_channel _ h3
  simp [ColorCalibration.to_json, ColorCalibration.from_json, List.lookup, pyStr,
    pyToFloatOpt, hu1, hu2, hu3, h1, h2, h3]
  exact parse_offsets_roundtrip offs hk

/-- A concrete instantiation of `c7_json_roundtrip`: a reversed channel
order, non-default gains and a "Red" offset survive the round trip. -/
theorem c7_json_roundtrip_witness :
    ColorCalibration.from_json
      (ColorCalibration.to_json
        { order := ("B", "G", "R"), gain_r := 1.5, gain_g := 0.75, gain_b := 2.0,
          target_offsets := some [("Red", { red := 5, green := 0, blue := -3 })] }) =
      some
        { order := ("B", "G", "R"), gain_r := 1.5, gain_g := 0.75, gain_b := 2.0,
          target_offsets := some [("Red", { red := 5, green := 0, blue := -3 })] } :=
  c7_json_roundtrip
    { order := ("B", "G", "R"), gain_r := 1.5, gain_g := 0.75, gain_b := 2.0,
      target_offsets := some [("Red", { red := 5, green := 0, blue := -3 })] }
    [("Red", { red := 5, green := 0, blue := -3 })]
    rfl (by decide) (by decide) (by decide) (by decide)

end X56

namespace X56

/-! ## C9: effect-tick session lifecycle -/

theorem lookup_filterMap_notmem (k : String) (f : EffectSession → Option EffectSession) :
    ∀ l : List (String × EffectSession), ¬ k ∈ l.map Prod.fst →
      (l.filterMap (fun p => (f p.2).map (fun s2 => (p.1, s2)))).lookup k = none := by
  intro l
  induction l with
  | nil => intro _; rfl
  | cons p rest ih =>
    intro h
    simp only [List.map_cons, List.mem_cons, not_or] at h
    obtain ⟨hne, hrest⟩ := h
    simp only [List.filterMap_cons]
    cases hf : f p.2 with
    | none => exact ih hrest
    | some s2 =>
      simp only [Option.map_some, List.lookup]
      have : (k == p.1) = false := by simp [hne]
      rw [this]
      exact ih hrest

theorem lookup_filterMap_hit (k : String) (f : EffectSession → Option EffectSession) :
    ∀ (l : List (String × EffectSession)) (s : EffectSession),
      (l.map Prod.fst).Nodup → l.lookup k = some s →
      (l.filterMap (fun p => (f p.2).map (fun s2 => (p.1, s2)))).lookup k = f s := by
  intro l
  induction l with
  | nil => intro s _ hs; exact absurd hs (by simp [List.lookup])
  | cons p rest ih =>
    intro s hnd hs
    obtain ⟨k1, s1⟩ := p
    simp only [List.map_cons, List.nodup_cons] at hnd
    obtain ⟨hk1, hndrest⟩ := hnd
    by_cases hq : k = k1
    · subst hq
      have hs1 : s1 = s := by
        simp only [List.lookup, beq_self_eq_true] at hs
        exact Option.some.injEq .. |>.mp hs
      subst hs1
      simp only [List.filterMap_cons]
      cases hf : f s1 with
      | none => exact lookup_filterMap_notmem k f rest hk1
      | some v =>
        simp only [Option.map_some, List.lookup, beq_self_eq_true]
      -- lookup k ((k, v) :: _) = some v = f s1
    · have hs' : rest.lookup k = some s := by
        simp only [List.lookup] at hs
        have : (k == k1) = false := by simp [hq]
        rw [this] at hs
        exact hs
      simp only [List.filterMap_cons]
      cases hf : f s1 with
      | none => exact ih s hndrest hs'
      | some v =>
        simp only [Option.map_some, List.lookup]
        have : (k == k1) = false := by simp [hq]
        rw [this]
        exact ih s hndrest hs'

theorem resolved_targets_of_no_devices (session : EffectSession) :
    resolved_target_ids [] session = [] := by
  unfold resolved_target_ids
  cases session.product_id <;> simp

/-- The tick's effect on one present session, keyed by lookup. -/
theorem lookup_effect_tick (devices : List DeviceInfo)
    (sessions : List (String × EffectSession))
    (dispatch : List Nat → Int × Int × Int → Except String (Nat × List String))
    (k : String) (s : EffectSession)
    (hnd : (sessions.map Prod.fst).Nodup) (hs : sessions.lookup k = some s) :
    (effect_tick devices sessions dispatch).lookup k =
      if devices.isEmpty then some s else tick_session devices dispatch s := by
  have hne : sessions.isEmpty = false := by
    cases sessions with
    | nil => exact absurd hs (by simp [List.lookup])
    | cons p rest => rfl
  unfold effect_tick
  rw [hne]
  simp only [Bool.false_or]
  by_cases hd : devices.isEmpty
  · rw [if_pos hd, if_pos hd]
    exact hs
  · rw [if_neg hd, if_neg hd]
    exact lookup_filterMap_hit k (tick_session devices dispatch) sessions s hnd hs

/-- C9.  On a tick, a present session with an empty resolved target set
stays present and untouched; a dispatcher-level failure leaves it
untouched; a normal dispatch return (whatever per-device failures it
carries) advances exactly the phase; and a session disappears on a tick
only when its mode is `off` (which does remove it whenever devices are
present). -/
theorem c9_effect_tick_lifecycle (devices : List DeviceInfo)
    (sessions : List (String × EffectSession))
    (dispatch : List Nat → Int × Int × Int → Except String (Nat × List String))
    (k : String) (s : EffectSession)
    (hnd : (sessions.map Prod.fst).Nodup) (hs : sessions.lookup k = some s) :
    (¬ s.mode = EFFECT_OFF → resolved_target_ids devices s = [] →
      (effect_tick devices sessions dispatch).lookup k = some s) ∧
    (∀ e, ¬ s.mode = EFFECT_OFF →
      dispatch (resolved_target_ids devices s)
        (compute_effect_color s.mode s.base_rgb s.phase
          (Float.ofInt s.brightness / 100.0)) = .error e →
      (effect_tick devices sessions dispatch).lookup k = some s) ∧
    (∀ res, ¬ s.mode = EFFECT_OFF → resolved_target_ids devices s ≠ [] →
      dispatch (resolved_target_ids devices s)
        (compute_effect_color s.mode s.base_rgb s.phase
          (Float.ofInt s.brightness / 100.0)) = .ok res →
      (effect_tick devices sessions dispatch).lookup k =
        some { s with phase := next_phase s.phase s.speed }) ∧
    ((effect_tick devices sessions dispatch).lookup k = none → s.mode = EFFECT_OFF) ∧
    (s.mode = EFFECT_OFF → devices ≠ [] →
      (effect_tick devices sessions dispatch).lookup k = none) := by
  have hmaster := lookup_effect_tick devices sessions dispatch k s hnd hs
  have hoffbeq : ∀ h : ¬ s.mode = EFFECT_OFF, (s.mode == EFFECT_OFF) = false := by
    intro h
    simp [h]
  refine ⟨?_, ?_, ?_, ?_, ?_⟩
  · intro hmode htids
    rw [hmaster]
    by_cases hd : devices.isEmpty
    · rw [if_pos hd]
    · rw [if_neg hd]
      unfold tick_session
      rw [hoffbeq hmode]
      simp only [Bool.false_eq_true, if_false, htids, List.isEmpty_nil, if_true]
  · intro e hmode hdisp
    rw [hmaster]
    by_cases hd : devices.isEmpty
    · rw [if_pos hd]
    · rw [if_neg hd]
      unfold tick_session
      rw [hoffbeq hmode]
      simp only [Bool.false_eq_true, if_false]
      by_cases htids : (resolved_target_ids devices s).isEmpty
      · rw [if_pos htids]
      · rw [if_neg htids, hdisp]
  · intro res hmode htids hdisp
    have hd : devices.isEmpty = false := by
      cases devices with
      | nil => exact absurd (resolved_targets_of_no_devices s) htids
      | cons d rest => rfl
    rw [hmaster, hd]
    simp only [Bool.false_eq_true, if_false]
    unfold tick_session
    rw [hoffbeq hmode]
    simp only [Bool.false_eq_true, if_false]
    rw [if_neg (by simpa [List.isEmpty_iff] using htids), hdisp]
  · intro hnone
    by_contra hmode
    rw [hmaster] at hnone
    by_cases hd : devices.isEmpty
    · rw [if_pos hd] at hnone
      exact Option.noConfusion hnone
    · rw [if_neg hd] at hnone
      unfold tick_session at hnone
      rw [hoffbeq hmode] at hnone
      simp only [Bool.false_eq_true, if_false] at hnone
      by_cases htids : (resolved_target_ids devices s).isEmpty
      · rw [if_pos htids] at hnone
        exact Option.noConfusion hnone
      · rw [if_neg htids] at hnone
        cases hdisp : dispatch (resolved_target_ids devices s)
            (compute_effect_color s.mode s.base_rgb s.phase
              (Float.ofInt s.brightness / 100.0)) with
        | error e =>
          rw [hdisp] at hnone
          exact Option.noConfusion hnone
        | ok res =>
          rw [hdisp] at hnone
          exact Option.noConfusion hnone
  · intro hmode hdev
    have hd : devices.isEmpty = false := by
      cases devices with
      | nil => exact absurd rfl hdev
      | cons d rest => rfl
    rw [hmaster, hd]
    simp only [Bool.false_eq_true, if_false]
    unfold tick_session
    rw [if_pos (by simp [hmode])]

/-- A concrete instantiation of `c9_effect_tick_lifecycle`: a rainbow
session whose dispatch raises keeps its phase for that tick. -/
theorem c9_effect_tick_witness :
    (effect_tick [⟨1, "X-56 Joystick", 1, 4, 0x2221⟩]
        [("manual", ⟨"manual", "rainbow", 3, 100, (255, 0, 0), [1], none, 0.0⟩)]
        (fun _ _ => .error "No compatible X-56 devices found.")).lookup "manual" =
      some ⟨"manual", "rainbow", 3, 100, (255, 0, 0), [1], none, 0.0⟩ :=
  (c9_effect_tick_lifecycle [⟨1, "X-56 Joystick", 1, 4, 0x2221⟩]
      [("manual", ⟨"manual", "rainbow", 3, 100, (255, 0, 0), [1], none, 0.0⟩)]
      (fun _ _ => .error "No compatible X-56 devices found.") "manual"
      ⟨"manual", "rainbow", 3, 100, (255, 0, 0), [1], none, 0.0⟩
      (by simp) (by rfl)).2.1 "No compatible X-56 devices found." (by decide) (by rfl)

end X56
